import Mathlib

/-!
Verification development for the terminal resource monitor
(`resource_manager.py`).  The Python source is shallowly embedded:
floats are modelled as exact rationals (`ℚ`), Python's `int(...)`
truncation as `pyInt`, Python's string repetition `s * n` (which clamps
negative counts to the empty string) as `pyRepeat`, the `deque` with
`maxlen` as `deque_append` on lists, and the printed frame as an
explicit list of lines / effect trace with the wall-clock timestamp an
explicit input.
-/

set_option allowUnsafeReducibility true

attribute [local semireducible] Rat.mul Rat.inv Rat.add Rat.sub Rat.ofScientific

/-- Python `int(x)` on a real value: truncation toward zero. -/
def pyInt (q : ℚ) : ℤ := if 0 ≤ q then ⌊q⌋ else ⌈q⌉

/-- Python string repetition `c * n`: a negative count yields the empty string. -/
def pyRepeat (c : Char) (n : ℤ) : String := String.mk (List.replicate n.toNat c)

/-- Right-alignment `f"{s:>w}"`: pad on the left with spaces up to width `w`. -/
def padLeft (w : ℕ) (s : String) : String :=
  String.mk (List.replicate (w - s.length) ' ') ++ s

/-- Zero padding on the left, used for fractional digits of fixed-point formatting. -/
def padZeros (w : ℕ) (s : String) : String :=
  String.mk (List.replicate (w - s.length) '0') ++ s

/-- Python fixed-point float formatting `f"{q:>width.precf}"`, idealised over `ℚ`:
round to `prec` decimal digits and right-align to `width`. -/
def formatFixed (width prec : ℕ) (q : ℚ) : String :=
  let n : ℤ := round (q * (10 : ℚ) ^ prec)
  let m : ℕ := n.natAbs
  let ip : ℕ := m / 10 ^ prec
  let fp : ℕ := m % 10 ^ prec
  let sign : String := if n < 0 then "-" else ""
  let body : String :=
    if prec = 0 then sign ++ toString ip
    else sign ++ toString ip ++ "." ++ padZeros prec (toString fp)
  padLeft width body

/-- Boolean test that `sub` occurs at the head of `l` (Python substring helper). -/
def isPref : List Char → List Char → Bool
  | [], _ => true
  | _ :: _, [] => false
  | c :: cs, d :: ds => c = d && isPref cs ds

/-- Boolean test that `sub` occurs somewhere inside `l` (Python `sub in s`). -/
def hasSub (sub : List Char) : List Char → Bool
  | [] => sub.isEmpty
  | c :: ds => isPref sub (c :: ds) || hasSub sub ds

/-- Python substring containment `sub in s` on strings. -/
def strContains (s sub : String) : Bool := hasSub sub.data s.data

/-- ANSI reset code from the source's `ANSI` class. -/
def ANSI.RESET : String := "\x1b[0m"

/-- ANSI bold code. -/
def ANSI.BOLD : String := "\x1b[1m"

/-- Red background, used for the CPU bar and graph cells. -/
def ANSI.BG_CPU : String := "\x1b[41m"

/-- Blue background, used for the memory bar. -/
def ANSI.BG_MEM : String := "\x1b[44m"

/-- Green background, used for the disk bar. -/
def ANSI.BG_DISK : String := "\x1b[42m"

/-- Yellow background (network). -/
def ANSI.BG_NET : String := "\x1b[43m"

/-- Light grey background used for the empty part of a bar. -/
def ANSI.BG_EMPTY : String := "\x1b[47m"

/-- Length of the rolling CPU history (module-level configuration constant). -/
def CPU_HISTORY_LENGTH : ℕ := 30

/-- Height of the vertical CPU history graph (module-level configuration constant). -/
def GRAPH_HEIGHT : ℕ := 5

/-- The initial history deque: `deque([0.0] * CPU_HISTORY_LENGTH, maxlen=...)`. -/
def cpu_history : List ℚ := List.replicate CPU_HISTORY_LENGTH 0

/-- One `deque.append` on a deque with `maxlen`: append on the right and drop
from the left whatever exceeds the capacity. -/
def deque_append (maxlen : ℕ) (b : List ℚ) (v : ℚ) : List ℚ :=
  if maxlen < (b ++ [v]).length then (b ++ [v]).drop ((b ++ [v]).length - maxlen)
  else b ++ [v]

/-- Fold a sequence of pushes into the history deque. -/
def pushAll (maxlen : ℕ) (b : List ℚ) (vs : List ℚ) : List ℚ :=
  vs.foldl (deque_append maxlen) b

/-- One raw reading of the psutil counters consumed by `get_resources`
(cpu percent, virtual-memory bytes/percent, disk bytes/percent for the
root partition, cumulative network bytes). -/
structure PsEnv where
  cpu_percent : ℚ
  vm_total : ℚ
  vm_used : ℚ
  vm_percent : ℚ
  disk_total : ℚ
  disk_used : ℚ
  disk_percent : ℚ
  net_sent : ℚ
  net_recv : ℚ

/-- The all-zero fallback dictionary returned by `get_resources` on failure. -/
def zero_resource_data : List (String × ℚ) :=
  [("cpu_percent", 0), ("mem_total_gb", 0), ("mem_used_gb", 0), ("mem_percent", 0),
   ("disk_total_gb", 0), ("disk_used_gb", 0), ("disk_percent", 0),
   ("bytes_sent_mb", 0), ("bytes_recv_mb", 0)]

/-- Embedding of `get_resources`: the underlying psutil queries are an explicit
input which either yields a reading or fails with an exception message.  On
success the reading is normalised to GB/MB and returned as the insertion-ordered
dictionary; on any failure the all-zero dictionary is returned instead. -/
def get_resources : Except String PsEnv → List (String × ℚ)
  | Except.ok e =>
    [("cpu_percent", e.cpu_percent),
     ("mem_total_gb", e.vm_total / 1024 ^ 3),
     ("mem_used_gb", e.vm_used / 1024 ^ 3),
     ("mem_percent", e.vm_percent),
     ("disk_total_gb", e.disk_total / 1024 ^ 3),
     ("disk_used_gb", e.disk_used / 1024 ^ 3),
     ("disk_percent", e.disk_percent),
     ("bytes_sent_mb", e.net_sent / (1024 * 1024)),
     ("bytes_recv_mb", e.net_recv / (1024 * 1024))]
  | Except.error _ => zero_resource_data

/-- The console output produced by `get_resources` itself: nothing on success,
the error report on the failure path. -/
def get_resources_output : Except String PsEnv → List String
  | Except.ok _ => []
  | Except.error msg => [("An error occurred while fetching resources: ") ++ msg]

/-- Dictionary lookup `data[k]`.  Every snapshot produced by `get_resources`
contains all nine keys (proved below), so the default is never reached on
program-produced data. -/
def dlookup (data : List (String × ℚ)) (k : String) : ℚ :=
  (data.lookup k).getD 0

/-- The `fill_count` of `get_colored_bar`: `int(percent / 100 * length)`. -/
def fill_count (percent : ℚ) (length : ℕ) : ℤ :=
  pyInt (percent / 100 * (length : ℚ))

/-- The `empty_count` of `get_colored_bar`: `length - fill_count`. -/
def empty_count (percent : ℚ) (length : ℕ) : ℤ :=
  (length : ℤ) - fill_count percent length

/-- Embedding of `get_colored_bar`: the colored horizontal bar string. -/
def get_colored_bar (percent : ℚ) (bg_color : String) (length : ℕ) : String :=
  ("|") ++ bg_color ++ pyRepeat ' ' (fill_count percent length) ++ ANSI.RESET ++
    ANSI.BG_EMPTY ++ pyRepeat ' ' (empty_count percent length) ++ ANSI.RESET ++ ("|")

/-- Number of cells actually rendered between the bar delimiters (Python string
repetition clamps each negative count to zero characters). -/
def bar_total_cells (percent : ℚ) (length : ℕ) : ℕ :=
  (fill_count percent length).toNat + (empty_count percent length).toNat

/-- Threshold of graph row `h` for graph height `H`: `100 * (h / H)`. -/
def graphThreshold (H h : ℕ) : ℚ := 100 * ((h : ℚ) / (H : ℚ))

/-- The filled graph cell: a red block. -/
def graph_filled_cell : String := ANSI.BG_CPU ++ (" ") ++ ANSI.RESET

/-- One cell of the history graph for row `h` of height `H` and sample `val`. -/
def graph_cell (H h : ℕ) (val : ℚ) : String :=
  if graphThreshold H h ≤ val then graph_filled_cell
  else if 0 < val ∧ h = 1 then ("·")
  else (" ")

/-- The left-hand percentage marker of a graph row: `f"{int(threshold):>3}%"`. -/
def graph_label (H h : ℕ) : String :=
  padLeft 3 (toString (pyInt (graphThreshold H h))) ++ ("%")

/-- One data row of the history graph. -/
def graph_line (H h : ℕ) (history : List ℚ) : String :=
  graph_label H h ++ (" | ") ++ String.join (history.map (graph_cell H h))

/-- The list `graph_lines` built by `render_cpu_history_graph`, with the two
module constants `GRAPH_HEIGHT` and `CPU_HISTORY_LENGTH` as parameters `H`, `N`:
rows for `h = H, H-1, ..., 1`, then the baseline `"----+" + "-" * N`. -/
def render_cpu_history_graph_lines (H N : ℕ) (history : List ℚ) : List String :=
  (List.range H).map (fun i => graph_line H (H - i) history) ++
    [("----+") ++ String.mk (List.replicate N '-')]

/-- Embedding of `render_cpu_history_graph`: the joined multi-line string. -/
def render_cpu_history_graph (H N : ℕ) (history : List ℚ) : String :=
  String.intercalate ("\n") (render_cpu_history_graph_lines H N history)

/-- The 52-character `"===..."` header rule of the frame. -/
def header_rule : String := String.mk (List.replicate 52 '=')

/-- The 52-character `"-" * 52` separator of the frame. -/
def dashes52 : String := String.mk (List.replicate 52 '-')

/-- Embedding of `display_monitor`, as the ordered list of strings it prints.
The wall-clock reading `time.strftime(...)` and the global `cpu_history` are
explicit inputs.  Each list element is one `print` call of the source. -/
def display_monitor_lines (data : List (String × ℚ)) (iteration : ℕ)
    (history : List ℚ) (timestamp : String) : List String :=
  [ANSI.BOLD ++ header_rule ++ ANSI.RESET,
   ANSI.BOLD ++ ("        Task Manager Style Resource Monitor         ") ++ ANSI.RESET,
   ("        (Refresh: 1s | History: ") ++ toString CPU_HISTORY_LENGTH ++ ("s)       "),
   ANSI.BOLD ++ header_rule ++ ANSI.RESET,
   ("Last Update: ") ++ timestamp ++ (" (Iteration ") ++ toString iteration ++ (")"),
   dashes52,
   ANSI.BOLD ++ ("CPU Usage:") ++ ANSI.RESET,
   ("  Load: ") ++ formatFixed 5 1 (dlookup data ("cpu_percent")) ++ ("%  ") ++
     get_colored_bar (dlookup data ("cpu_percent")) ANSI.BG_CPU 30,
   ("\n") ++ render_cpu_history_graph GRAPH_HEIGHT CPU_HISTORY_LENGTH history,
   dashes52,
   ANSI.BOLD ++ ("Memory (RAM) Usage:") ++ ANSI.RESET,
   ("  Load: ") ++ formatFixed 5 1 (dlookup data ("mem_percent")) ++ ("%  ") ++
     get_colored_bar (dlookup data ("mem_percent")) ANSI.BG_MEM 30,
   ("  Used: ") ++ formatFixed 5 2 (dlookup data ("mem_used_gb")) ++ (" GB / Total: ") ++
     formatFixed 5 2 (dlookup data ("mem_total_gb")) ++ (" GB"),
   dashes52,
   ANSI.BOLD ++ ("Disk Usage (Root):") ++ ANSI.RESET,
   ("  Load: ") ++ formatFixed 5 1 (dlookup data ("disk_percent")) ++ ("%  ") ++
     get_colored_bar (dlookup data ("disk_percent")) ANSI.BG_DISK 30,
   ("  Used: ") ++ formatFixed 5 2 (dlookup data ("disk_used_gb")) ++ (" GB / Total: ") ++
     formatFixed 5 2 (dlookup data ("disk_total_gb")) ++ (" GB"),
   dashes52,
   ANSI.BOLD ++ ("Network I/O (Total):") ++ ANSI.RESET,
   ("  Data Sent:     ") ++ formatFixed 7 2 (dlookup data ("bytes_sent_mb")) ++ (" MB"),
   ("  Data Received: ") ++ formatFixed 7 2 (dlookup data ("bytes_recv_mb")) ++ (" MB"),
   dashes52,
   ANSI.BOLD ++ ("Note:") ++ ANSI.RESET ++ (" Colors require ANSI support. Press Ctrl+C to stop.")]

/-- One observable side effect of `display_monitor`. -/
inductive Effect where
  | clear : Effect
  | print : String → Effect
deriving DecidableEq

/-- Embedding of `display_monitor` as its effect trace: it first clears the
console (`clear_console()`) and then prints every frame line. -/
def display_monitor (data : List (String × ℚ)) (iteration : ℕ)
    (history : List ℚ) (timestamp : String) : List Effect :=
  Effect.clear :: (display_monitor_lines data iteration history timestamp).map Effect.print

/-- One iteration of the `main` loop body: fetch resources, append the cpu
sample to the history deque, display.  Returns the updated history and the
effect trace of the tick (error reports from `get_resources` included). -/
def main_tick (env : Except String PsEnv) (history : List ℚ) (iteration : ℕ)
    (timestamp : String) : List ℚ × List Effect :=
  let data := get_resources env
  let history2 := deque_append CPU_HISTORY_LENGTH history (dlookup data ("cpu_percent"))
  (history2,
    (get_resources_output env).map Effect.print ++
      display_monitor data iteration history2 timestamp)

/-- The concrete end-to-end snapshot of the spec's test vector, as the data
dictionary consumed by `display_monitor`. -/
def demo_snapshot : List (String × ℚ) :=
  [("cpu_percent", 47.3), ("mem_total_gb", 8), ("mem_used_gb", 5.12), ("mem_percent", 62),
   ("disk_total_gb", 125), ("disk_used_gb", 100), ("disk_percent", 80),
   ("bytes_sent_mb", 120.45), ("bytes_recv_mb", 980.1)]

/-- The frame composed from the spec's end-to-end snapshot at iteration 1
(the timestamp is arbitrary; the claims under test do not mention it). -/
def demo_lines : List String :=
  display_monitor_lines demo_snapshot 1 cpu_history ("2026-01-01 00:00:00")

/-- Python truncation agrees with the floor on non-negative values. -/
theorem pyInt_of_nonneg {q : ℚ} (h : 0 ≤ q) : pyInt q = ⌊q⌋ := if_pos h

/-- Python truncation toward zero is monotone. -/
theorem pyInt_mono {a b : ℚ} (h : a ≤ b) : pyInt a ≤ pyInt b := by
  unfold pyInt
  by_cases ha : 0 ≤ a <;> by_cases hb : 0 ≤ b <;> simp [ha, hb]
  · exact Int.floor_le_floor h
  · exact absurd (ha.trans h) hb
  · calc ⌈a⌉ ≤ 0 := Int.ceil_le.mpr (by push_cast; linarith)
      _ ≤ ⌊b⌋ := Int.le_floor.mpr (by push_cast; exact hb)
  · exact Int.ceil_le_ceil h

/-- Claim C10: `get_resources` returns a dictionary with exactly the same nine
keys, in the same order, on both the success path and the failure path. -/
theorem get_resources_key_set (env : Except String PsEnv) :
    (get_resources env).map Prod.fst =
      [("cpu_percent"), ("mem_total_gb"), ("mem_used_gb"), ("mem_percent"),
       ("disk_total_gb"), ("disk_used_gb"), ("disk_percent"),
       ("bytes_sent_mb"), ("bytes_recv_mb")] := by
  cases env <;> rfl

/-- Claim C5: on any underlying metrics-query failure, `get_resources` does not
propagate the failure (it is a total function of the query outcome): it prints
the error report, returns the snapshot in which every field is zero, and the
tick of the sampling loop still proceeds, pushing the zero cpu sample into the
history. -/
theorem get_resources_failure_zeroes (msg : String) (history : List ℚ)
    (iteration : ℕ) (timestamp : String) :
    get_resources (Except.error msg) = zero_resource_data
    ∧ (∀ kv ∈ get_resources (Except.error msg), kv.2 = 0)
    ∧ get_resources_output (Except.error msg) =
        [("An error occurred while fetching resources: ") ++ msg]
    ∧ (main_tick (Except.error msg) history iteration timestamp).1 =
        deque_append CPU_HISTORY_LENGTH history 0 := by
  refine ⟨rfl, ?_, rfl, rfl⟩
  show ∀ kv ∈ zero_resource_data, kv.2 = 0
  decide

/-- Claim C1 (code bug): `get_colored_bar` does not clamp its percentage.  At
`percent = 150` it computes `fill_count = 45 > 30` and a negative
`empty_count`, rendering a 45-cell bar; at `percent = -50` it renders 0 filled
and 45 empty cells.  In both cases the bar does not consist of exactly
`W = 30` cells, contradicting the clamping the spec requires. -/
theorem get_colored_bar_unclamped :
    fill_count 150 30 = 45
    ∧ empty_count 150 30 = -15
    ∧ bar_total_cells 150 30 = 45
    ∧ fill_count (-50) 30 = -15
    ∧ bar_total_cells (-50) 30 = 45
    ∧ bar_total_cells 150 30 ≠ 30 := by decide

/-- Claim C9: for a fixed bar width, `fill_count` is monotone in the
percentage. -/
theorem fill_count_mono (p1 p2 : ℚ) (W : ℕ) (h : p1 ≤ p2) :
    fill_count p1 W ≤ fill_count p2 W := by
  apply pyInt_mono
  have h100 : p1 / 100 ≤ p2 / 100 := by linarith
  exact mul_le_mul_of_nonneg_right h100 (by positivity)

/-- Witness for C9 at `p1 = 10`, `p2 = 20`, `W = 30`. -/
theorem fill_count_mono_witness :
    (10 : ℚ) ≤ 20 ∧ fill_count 10 30 ≤ fill_count 20 30 :=
  ⟨by norm_num, fill_count_mono 10 20 30 (by norm_num)⟩

/-- Claim C6: for a percentage within `[0, 100]` the bar follows the spec's
design: `fill_count = floor(percent / 100 * W)`, `empty_count = W - fill_count`
(both within `[0, W]`), and the output is the filled run followed by the empty
run between the two delimiter bars; `render(0, W)` fills nothing,
`render(100, W)` fills everything, and `render(50, 30)` fills 15 cells. -/
theorem get_colored_bar_in_range (p : ℚ) (W : ℕ) (c : String)
    (h0 : 0 ≤ p) (h100 : p ≤ 100) :
    fill_count p W = ⌊p / 100 * (W : ℚ)⌋
    ∧ empty_count p W = (W : ℤ) - fill_count p W
    ∧ 0 ≤ fill_count p W
    ∧ fill_count p W ≤ (W : ℤ)
    ∧ get_colored_bar p c W =
        ("|") ++ c ++ pyRepeat ' ' (fill_count p W) ++ ANSI.RESET ++
          ANSI.BG_EMPTY ++ pyRepeat ' ' (empty_count p W) ++ ANSI.RESET ++ ("|")
    ∧ fill_count 0 W = 0
    ∧ empty_count 0 W = (W : ℤ)
    ∧ fill_count 100 W = (W : ℤ)
    ∧ empty_count 100 W = 0
    ∧ fill_count 50 30 = 15 := by
  have hx : (0:ℚ) ≤ p / 100 * (W:ℚ) := by positivity
  have hfloor : fill_count p W = ⌊p / 100 * (W:ℚ)⌋ := pyInt_of_nonneg hx
  have h0W : fill_count 0 W = 0 := by simp [fill_count, pyInt]
  have h100W : fill_count 100 W = (W:ℤ) := by
    have e : (100:ℚ)/100 * (W:ℚ) = (W:ℚ) := by norm_num
    rw [fill_count, e, pyInt_of_nonneg (by positivity), Int.floor_natCast]
  refine ⟨hfloor, rfl, ?_, ?_, rfl, h0W, ?_, h100W, ?_, ?_⟩
  · rw [hfloor]; exact Int.floor_nonneg.mpr hx
  · rw [hfloor]
    have hb : p / 100 * (W:ℚ) ≤ (W:ℚ) := by
      have h1 : p / 100 ≤ 1 := (div_le_one (show (0:ℚ) < 100 by norm_num)).mpr h100
      calc p / 100 * (W:ℚ) ≤ 1 * (W:ℚ) := mul_le_mul_of_nonneg_right h1 (by positivity)
        _ = (W:ℚ) := one_mul _
    calc ⌊p / 100 * (W:ℚ)⌋ ≤ ⌊(W:ℚ)⌋ := Int.floor_le_floor hb
      _ = (W:ℤ) := Int.floor_natCast W
  · simp [empty_count, h0W]
  · simp [empty_count, h100W]
  · decide

/-- Witness for C6 at `p = 50`, `W = 30`. -/
theorem get_colored_bar_in_range_witness :
    (0:ℚ) ≤ 50 ∧ (50:ℚ) ≤ 100 ∧ fill_count 50 30 = 15 :=
  ⟨by norm_num, by norm_num,
    (get_colored_bar_in_range 50 30 ("") (by norm_num) (by norm_num)).2.2.2.2.2.2.2.2.2⟩

/-- Claim C2: each history sample yields exactly one cell per row; the cell is
filled exactly when the sample reaches the row threshold `100 * h / H` (so a
value equal to the threshold counts into the higher band, e.g. `v = 80` fills
row `h = 4` for `H = 5`), the faint marker appears only on the bottom row for
a positive below-threshold sample, a zero sample yields a blank in every row,
and a sample of 100 yields a filled cell in every row. -/
theorem graph_cell_banding (H h : ℕ) (v : ℚ) (hH : 0 < H) (h1 : 1 ≤ h)
    (hhH : h ≤ H) :
    (graphThreshold H h ≤ v → graph_cell H h v = graph_filled_cell)
    ∧ (v < graphThreshold H h → 0 < v → h = 1 → graph_cell H h v = ("·"))
    ∧ (v < graphThreshold H h → ¬(0 < v ∧ h = 1) → graph_cell H h v = (" "))
    ∧ graph_cell H h 0 = (" ")
    ∧ graph_cell H h 100 = graph_filled_cell
    ∧ (∀ hist : List ℚ, (hist.map (graph_cell H h)).length = hist.length)
    ∧ graphThreshold 5 4 = 80
    ∧ graph_cell 5 4 80 = graph_filled_cell := by
  have hQ : (0:ℚ) < (H:ℚ) := by exact_mod_cast hH
  have hq : (0:ℚ) < (h:ℚ) := by exact_mod_cast Nat.lt_of_lt_of_le Nat.zero_lt_one h1
  have hth_pos : 0 < graphThreshold H h := by
    unfold graphThreshold; positivity
  have hth_le : graphThreshold H h ≤ 100 := by
    unfold graphThreshold
    have hd1 : (h:ℚ) / (H:ℚ) ≤ 1 := by
      rw [div_le_one hQ]; exact_mod_cast hhH
    calc 100 * ((h:ℚ)/(H:ℚ)) ≤ 100 * 1 := mul_le_mul_of_nonneg_left hd1 (by norm_num)
      _ = 100 := mul_one 100
  refine ⟨?_, ?_, ?_, ?_, ?_, ?_, ?_, ?_⟩
  · intro hle; simp only [graph_cell]; rw [if_pos hle]
  · intro hlt hv he1; simp only [graph_cell]
    rw [if_neg (not_le.mpr hlt), if_pos ⟨hv, he1⟩]
  · intro hlt hnot; simp only [graph_cell]
    rw [if_neg (not_le.mpr hlt), if_neg hnot]
  · simp only [graph_cell]
    rw [if_neg (not_le.mpr hth_pos), if_neg (by simp)]
  · simp only [graph_cell]; rw [if_pos hth_le]
  · intro hist; exact List.length_map hist (graph_cell H h)
  · decide
  · decide

/-- Witness for C2 at `H = 5`, `h = 4`, `v = 80` (tie resolves upward). -/
theorem graph_cell_banding_witness :
    0 < 5 ∧ 1 ≤ 4 ∧ 4 ≤ 5 ∧ graph_cell 5 4 80 = graph_filled_cell :=
  ⟨by decide, by decide, by decide,
    (graph_cell_banding 5 4 80 (by decide) (by decide) (by decide)).1 (by decide)⟩

/-- A `deque.append` always leaves the last pushed value at the right end
(capacity permitting at least one element). -/
theorem deque_append_last (N : ℕ) (hN : 0 < N) (b : List ℚ) (v : ℚ) :
    (deque_append N b v).getLast? = some v := by
  unfold deque_append
  split
  · have hd : (b ++ [v]).length - N ≤ b.length := by simp; omega
    rw [List.drop_append_of_le_length hd]
    exact List.getLast?_concat _
  · exact List.getLast?_concat _

/-- A `deque.append` on a full deque keeps the length at the capacity. -/
theorem deque_append_length_full {N : ℕ} {b : List ℚ} (hb : b.length = N)
    (v : ℚ) : (deque_append N b v).length = N := by
  unfold deque_append
  rw [if_pos (by simp [hb])]
  simp [hb]

/-- Folding pushes into a full deque keeps exactly the last `N` elements of the
concatenation of the old contents and the pushed sequence. -/
theorem pushAll_eq (N : ℕ) (vs : List ℚ) : ∀ b : List ℚ, b.length = N →
    pushAll N b vs = (b ++ vs).drop vs.length := by
  induction vs with
  | nil => intro b _; simp [pushAll]
  | cons v tl ih =>
    intro b hb
    have hb' : deque_append N b v = (b ++ [v]).drop 1 := by
      unfold deque_append
      rw [if_pos (by simp [hb])]
      congr 1
      simp [hb]
    have hlen' : (deque_append N b v).length = N := deque_append_length_full hb v
    have hstep : pushAll N b (v :: tl) = pushAll N (deque_append N b v) tl := rfl
    rw [hstep, ih _ hlen', hb',
      ← List.drop_append_of_le_length (show 1 ≤ (b ++ [v]).length by simp),
      List.drop_drop, List.append_assoc, List.singleton_append]
    congr 1
    simp [Nat.add_comm]

/-- Folding pushes into a full deque preserves the length. -/
theorem pushAll_length (N : ℕ) (b : List ℚ) (hb : b.length = N) (vs : List ℚ) :
    (pushAll N b vs).length = N := by
  rw [pushAll_eq N vs b hb]
  simp [hb]

/-- After a non-empty sequence of pushes, the most recent element of the deque
is the last pushed value. -/
theorem pushAll_last (N : ℕ) (hN : 0 < N) (b : List ℚ) (vs : List ℚ)
    (hvs : vs ≠ []) : (pushAll N b vs).getLast? = vs.getLast? := by
  rcases List.eq_nil_or_concat vs with rfl | ⟨ys, y, rfl⟩
  · exact absurd rfl hvs
  · rw [List.concat_eq_append]
    have hsplit : pushAll N b (ys ++ [y]) = deque_append N (pushAll N b ys) y := by
      simp [pushAll, List.foldl_append]
    rw [hsplit, deque_append_last N hN _ y, List.getLast?_concat]

/-- Claim C3: the history buffer starts as 30 zeros, its length is exactly 30
after any sequence of pushes, the most recent element is the last pushed value,
and eviction is FIFO with an oldest-first snapshot: after `k ≤ 30` pushes the
buffer is the remaining zeros followed by the pushed values in order, and after
`k > 30` pushes it is exactly the last 30 pushed values in order (the oldest
`k - 30` pushed values have been evicted). -/
theorem history_buffer_fifo (vs : List ℚ) :
    cpu_history.length = CPU_HISTORY_LENGTH
    ∧ (∀ x ∈ cpu_history, x = 0)
    ∧ (pushAll CPU_HISTORY_LENGTH cpu_history vs).length = CPU_HISTORY_LENGTH
    ∧ (vs ≠ [] →
        (pushAll CPU_HISTORY_LENGTH cpu_history vs).getLast? = vs.getLast?)
    ∧ (vs.length ≤ CPU_HISTORY_LENGTH →
        pushAll CPU_HISTORY_LENGTH cpu_history vs =
          List.replicate (CPU_HISTORY_LENGTH - vs.length) 0 ++ vs)
    ∧ (CPU_HISTORY_LENGTH < vs.length →
        pushAll CPU_HISTORY_LENGTH cpu_history vs =
          vs.drop (vs.length - CPU_HISTORY_LENGTH)) := by
  have hb : cpu_history.length = CPU_HISTORY_LENGTH := by simp [cpu_history]
  have heq := pushAll_eq CPU_HISTORY_LENGTH vs cpu_history hb
  refine ⟨hb, ?_, pushAll_length _ _ hb vs, ?_, ?_, ?_⟩
  · intro x hx
    exact List.eq_of_mem_replicate hx
  · intro hne
    exact pushAll_last CPU_HISTORY_LENGTH (by decide) cpu_history vs hne
  · intro hk
    rw [heq]
    simp only [cpu_history]
    rw [List.drop_append_of_le_length (by simpa using hk), List.drop_replicate]
  · intro hk
    rw [heq]
    simp only [cpu_history]
    have key := @List.drop_append ℚ (List.replicate CPU_HISTORY_LENGTH (0:ℚ))
      vs (vs.length - CPU_HISTORY_LENGTH)
    have hidx : (List.replicate CPU_HISTORY_LENGTH (0:ℚ)).length +
        (vs.length - CPU_HISTORY_LENGTH) = vs.length := by
      simp
      omega
    rw [hidx] at key
    exact key

/-- Witness for C3: 31 distinct pushes into the fresh buffer leave the last 30
of them, with the last pushed value most recent. -/
theorem history_buffer_fifo_witness :
    pushAll CPU_HISTORY_LENGTH cpu_history ((List.range 31).map (fun i => (i : ℚ))) =
      ((List.range 31).map (fun i => (i : ℚ))).drop 1
    ∧ (pushAll CPU_HISTORY_LENGTH cpu_history
        ((List.range 31).map (fun i => (i : ℚ)))).getLast? = some ((30 : ℕ) : ℚ) := by
  have h := history_buffer_fifo ((List.range 31).map (fun i => (i : ℚ)))
  refine ⟨?_, ?_⟩
  · have h1 := h.2.2.2.2.2 (by decide)
    simpa using h1
  · have h2 := h.2.2.2.1 (by decide)
    rw [h2]
    decide

/-- Claim C7 (amended): for every positive height `H` and history width `N` the
renderer produces exactly `H + 1` rows — the rows for `h = H` down to `1`, each
the right-aligned label of `int(100 * h / H)` (truncation, not rounding)
followed by `"%"`, a separator, and one cell per sample — and then one baseline
row of dashes.  Truncation agrees with rounding exactly when `H` divides
`100 * h`, as it does for every row of the default `H = 5`. -/
theorem render_graph_shape (H N : ℕ) (hist : List ℚ) (hH : 0 < H) :
    (render_cpu_history_graph_lines H N hist).length = H + 1
    ∧ (render_cpu_history_graph_lines H N hist).getLast? =
        some (("----+") ++ String.mk (List.replicate N '-'))
    ∧ (∀ i, i < H → (render_cpu_history_graph_lines H N hist).get? i =
        some (graph_line H (H - i) hist))
    ∧ (∀ h, 1 ≤ h → h ≤ H →
        graph_line H h hist =
          graph_label H h ++ (" | ") ++ String.join (hist.map (graph_cell H h))
        ∧ graph_label H h =
            padLeft 3 (toString (pyInt (graphThreshold H h))) ++ ("%"))
    ∧ (∀ h, h ≤ H → (100 * h) % H = 0 →
        pyInt (graphThreshold H h) = round (graphThreshold H h))
    ∧ render_cpu_history_graph H N hist =
        String.intercalate ("\n") (render_cpu_history_graph_lines H N hist) := by
  have hH0 : (H:ℚ) ≠ 0 := Nat.cast_ne_zero.mpr (Nat.pos_iff_ne_zero.mp hH)
  refine ⟨?_, ?_, ?_, ?_, ?_, rfl⟩
  · simp [render_cpu_history_graph_lines]
  · exact List.getLast?_concat _
  · intro i hi
    simp only [render_cpu_history_graph_lines]
    rw [List.get?_append (by simpa using hi), List.get?_map, List.get?_range hi]
    rfl
  · intro h _ _
    exact ⟨rfl, rfl⟩
  · intro h _ hmod
    obtain ⟨c, hc⟩ := Nat.dvd_of_mod_eq_zero hmod
    have hth : graphThreshold H h = (c:ℚ) := by
      unfold graphThreshold
      calc 100 * ((h:ℚ)/(H:ℚ)) = ((100 * h : ℕ) : ℚ) / (H:ℚ) := by push_cast; ring
        _ = ((H * c : ℕ) : ℚ) / (H:ℚ) := by rw [hc]
        _ = (c:ℚ) := by push_cast; exact mul_div_cancel_left₀ _ hH0
    rw [hth, pyInt_of_nonneg (by positivity), Int.floor_natCast, round_natCast]

/-- Witness for C7 at the default configuration `H = 5`, `N = 30`. -/
theorem render_graph_shape_witness :
    0 < 5 ∧ (render_cpu_history_graph_lines 5 30 cpu_history).length = 5 + 1 :=
  ⟨by decide, (render_graph_shape 5 30 cpu_history (by decide)).1⟩

/-- Counterexample to C7 as stated: with `H = 3` the row `h = 2` has threshold
`200 / 3 = 66.66...`; the source labels it `int(threshold) = 66`, while the
claimed `round(threshold)` is `67`. -/
theorem render_graph_label_counterexample :
    (render_cpu_history_graph_lines 3 1 [0]).get? 1 = some (" 66% |  ")
    ∧ pyInt (graphThreshold 3 2) = 66
    ∧ round (graphThreshold 3 2) = 67
    ∧ (66 : ℤ) ≠ 67 := by
  refine ⟨by decide, by decide, by decide, by decide⟩

/-- Claim C4 (amended): frame composition is a pure function of the snapshot,
the history, the iteration counter AND the wall-clock timestamp — recomposing
with all four unchanged yields the identical effect trace — but the trace
itself begins with the screen-clearing effect and then prints every line, so
clearing and printing happen inside `display_monitor`, not outside it. -/
theorem display_monitor_determinism (d d2 : List (String × ℚ)) (it it2 : ℕ)
    (hist hist2 : List ℚ) (t t2 : String)
    (hd : d = d2) (hi : it = it2) (hh : hist = hist2) (ht : t = t2) :
    display_monitor d it hist t = display_monitor d2 it2 hist2 t2
    ∧ (display_monitor d it hist t).head? = some Effect.clear
    ∧ display_monitor d it hist t =
        Effect.clear ::
          (display_monitor_lines d it hist t).map Effect.print := by
  subst hd; subst hi; subst hh; subst ht
  exact ⟨rfl, rfl, rfl⟩

/-- Witness for C4 at a concrete snapshot, iteration, history and timestamp. -/
theorem display_monitor_determinism_witness :
    display_monitor zero_resource_data 1 cpu_history ("2026-01-01 00:00:00") =
      display_monitor zero_resource_data 1 cpu_history ("2026-01-01 00:00:00")
    ∧ (display_monitor zero_resource_data 1 cpu_history
        ("2026-01-01 00:00:00")).head? = some Effect.clear :=
  ⟨(display_monitor_determinism zero_resource_data zero_resource_data 1 1
      cpu_history cpu_history ("2026-01-01 00:00:00") ("2026-01-01 00:00:00")
      rfl rfl rfl rfl).1,
   (display_monitor_determinism zero_resource_data zero_resource_data 1 1
      cpu_history cpu_history ("2026-01-01 00:00:00") ("2026-01-01 00:00:00")
      rfl rfl rfl rfl).2.1⟩

/-- Counterexample to C4 as stated: two compositions from the same snapshot,
history and iteration counter differ when only the wall clock has advanced
(the frame embeds `time.strftime` of the call moment), and the trace is not
effect-free — it starts by clearing the screen. -/
theorem display_monitor_timestamp_counterexample :
    display_monitor zero_resource_data 1 cpu_history ("2025-01-01 00:00:00") ≠
      display_monitor zero_resource_data 1 cpu_history ("2025-01-01 00:00:01")
    ∧ display_monitor zero_resource_data 1 cpu_history ("2025-01-01 00:00:00") ≠
        ([] : List Effect) := by
  refine ⟨by decide, by decide⟩

/-- Claim C8 (amended): the frame composed from the spec's snapshot at
iteration 1 has a CPU line containing `"47.3%"`, a memory line
`"  Used:  5.12 GB / Total:  8.00 GB"` (showing `5.12 GB` used and `8.00 GB`
total), and a disk bar with exactly 24 of its 30 cells filled. -/
theorem frame_end_to_end :
    strContains ((demo_lines.get? 7).getD ("")) ("47.3%") = true
    ∧ demo_lines.get? 12 = some ("  Used:  5.12 GB / Total:  8.00 GB")
    ∧ strContains ((demo_lines.get? 12).getD ("")) ("5.12 GB") = true
    ∧ strContains ((demo_lines.get? 12).getD ("")) ("8.00 GB") = true
    ∧ fill_count 80 30 = 24
    ∧ empty_count 80 30 = 6
    ∧ demo_lines.get? 15 =
        some (("  Load:  80.0%  ") ++ get_colored_bar 80 ANSI.BG_DISK 30)
    ∧ get_colored_bar 80 ANSI.BG_DISK 30 =
        ("|") ++ ANSI.BG_DISK ++ String.mk (List.replicate 24 ' ') ++ ANSI.RESET ++
          ANSI.BG_EMPTY ++ String.mk (List.replicate 6 ' ') ++ ANSI.RESET ++ ("|") := by
  refine ⟨by decide, by decide, by decide, by decide, by decide, by decide,
    by decide, by decide⟩

/-- Counterexample to C8 as stated: the memory line of that frame reads
`"  Used:  5.12 GB / Total:  8.00 GB"`, which does not contain the literal
substring `"5.12 GB / 8.00 GB"`. -/
theorem frame_memory_line_counterexample :
    demo_lines.get? 12 = some ("  Used:  5.12 GB / Total:  8.00 GB")
    ∧ strContains ("  Used:  5.12 GB / Total:  8.00 GB") ("5.12 GB / 8.00 GB") =
        false := by
  refine ⟨by decide, by decide⟩
